import Mathlib

/-!
Verification of the Express + Sequelize starter repository.

The development embeds the two designed components of the sources:

* the HTTP router of `src/index.js` (route registrations, the `GET /`
  handler, the catch-all 404 handler), with the register/dispatch
  contract of the specification standing in for the external web
  framework's matching engine (registration entries are unique per
  (method, path), last registration wins, unmatched requests fall
  through to the not-found handler);

* the startup sequencer of the `part_001` variant
  (`db.sequelize.sync().then(listen).catch(log)`), the unconditional
  startup of `src/index.js`, and the module evaluation of the
  `part_002` variant, as explicit event traces.
-/

/-- An inbound HTTP request, reduced to the data the sources inspect:
its method and its path. -/
structure Request where
  method : String
  path : String
deriving DecidableEq, Repr

/-- The JSON bodies produced by the sources are flat two-field objects
with keys `status` and `message`. -/
structure JsonMsg where
  status : String
  message : String
deriving DecidableEq, Repr

/-- A response body: either plain text (`res.send("...")`) or a JSON
envelope (`res.json(...)`). -/
inductive Body where
  | text (s : String)
  | json (m : JsonMsg)
deriving DecidableEq, Repr

/-- An HTTP response: numeric status code and body. -/
structure Response where
  status : Nat
  body : Body
deriving DecidableEq, Repr

/-- A handler maps a request to a response. -/
def Handler : Type := Request → Response

/-- One route registration entry: (method, path) → handler. -/
structure RouteEntry where
  method : String
  path : String
  handler : Handler

/-- The route table built up by registrations. -/
def RouteTable : Type := List RouteEntry

/-- `register`: adds an entry for (method, path).  The entry is
prepended, so that a later registration of the same pair shadows an
earlier one (last-write-wins, the registration policy stated by the
specification for the reconstructed router). -/
def register (t : RouteTable) (m p : String) (h : Handler) : RouteTable :=
  ⟨m, p, h⟩ :: t

/-- Look up the handler registered for (method, path): the most recent
matching registration, if any. -/
def lookupRoute : RouteTable → String → String → Option Handler
  | [], _, _ => none
  | e :: rest, m, p =>
    if e.method = m ∧ e.path = p then some e.handler else lookupRoute rest m p

/-- `dispatch`: invoke the registered handler if one matches, otherwise
fall through to the not-found handler (the `app.use("*")` catch-all of
`src/index.js`). -/
def dispatch (t : RouteTable) (notFound : Handler) (m p : String) : Response :=
  match lookupRoute t m p with
  | some h => h ⟨m, p⟩
  | none => notFound ⟨m, p⟩

/-- The `GET /` handler of `src/index.js`:
`res.send("Welcome to the server")` — plain text, default status 200. -/
def rootHandler : Handler := fun _ =>
  ⟨200, Body.text "Welcome to the server"⟩

/-- The catch-all handler of `src/index.js`:
`res.status(404).json(...)` with body keys status/message. -/
def notFoundHandler : Handler := fun _ =>
  ⟨404, Body.json ⟨"Failed", "Route Not Found"⟩⟩

/-- A second handler, distinct from `rootHandler`, used to exercise the
duplicate-registration policy. -/
def altHandler : Handler := fun _ =>
  ⟨201, Body.text "alternative"⟩

/-- The route table of `src/index.js`: the single registration
`app.get("/", ...)` (the auth mount is commented out there). -/
def appRoutes : RouteTable :=
  register [] "GET" "/" rootHandler

/-- Dispatching a request against the `src/index.js` application:
registered routes first, then the catch-all 404. -/
def appDispatch (m p : String) : Response :=
  dispatch appRoutes notFoundHandler m p

/-- The responses produced for a sequence of requests served by the
`src/index.js` application.  The sources keep no per-request mutable
state, so serving is a pure map over the request sequence. -/
def serveLog (reqs : List Request) : List Response :=
  reqs.map (fun r => appDispatch r.method r.path)

/-- Observable events of process startup:
the data-store verification resolving (success or failure), the console
logs, binding the listener on a port, and an explicit process exit
(which no source variant ever performs). -/
inductive StartupEvent where
  | syncSucceeded
  | syncFailed (err : String)
  | logSynced
  | listen (port : Nat)
  | logListening (port : Nat)
  | logError (err : String)
  | procExit (code : Nat)
deriving DecidableEq, Repr

/-- `const PORT = process.env.PORT || 5000` of the `part_001` variant:
the configured port, defaulting to 5000. -/
def resolvePort (envPORT : Option Nat) : Nat :=
  envPORT.getD 5000

/-- The startup trace of the `part_001` variant:
`db.sequelize.sync().then(() => { log; app.listen(PORT, () => log) })
.catch((error) => console.error(...))`.
On success the sync resolves, the success message is logged, the
listener binds on the configured port and readiness is logged; on
failure the error is logged and nothing else happens. -/
def syncStartupTrace (syncResult : Except String Unit) (port : Nat) :
    List StartupEvent :=
  match syncResult with
  | Except.ok _ =>
    [StartupEvent.syncSucceeded, StartupEvent.logSynced,
     StartupEvent.listen port, StartupEvent.logListening port]
  | Except.error e =>
    [StartupEvent.syncFailed e, StartupEvent.logError e]

/-- The startup trace of `src/index.js`: `app.listen(process.env.APP_PORT,
() => console.log(...))` runs unconditionally at module evaluation — no
data-store verification precedes it. -/
def indexStartupTrace (appPort : Nat) : List StartupEvent :=
  [StartupEvent.listen appPort, StartupEvent.logListening appPort]

/-- Whether an event is the error log emitted by the `.catch` branch. -/
def isLogError : StartupEvent → Bool
  | StartupEvent.logError _ => true
  | _ => false

/-- Whether an event is the resolution of a data-store verification
attempt (either way). -/
def isSyncAttempt : StartupEvent → Bool
  | StartupEvent.syncSucceeded => true
  | StartupEvent.syncFailed _ => true
  | _ => false

/-- The connection state tracked once at startup. -/
inductive ConnState where
  | unverified
  | connected
  | failed
deriving DecidableEq, Repr

/-- How a startup event updates the connection state: only the
resolution of the verification attempt changes it. -/
def connStep (s : ConnState) : StartupEvent → ConnState
  | StartupEvent.syncSucceeded => ConnState.connected
  | StartupEvent.syncFailed _ => ConnState.failed
  | _ => s

/-- The sequence of connection states along a startup trace, starting
unverified. -/
def connStates (t : List StartupEvent) : List ConnState :=
  t.scanl connStep ConnState.unverified

/-- The number of state changes along a state sequence: adjacent
positions holding different states. -/
def stateChanges : List ConnState → Nat
  | [] => 0
  | [_] => 0
  | a :: b :: rest => (if a = b then 0 else 1) + stateChanges (b :: rest)

/-- Statements of the `part_002` variant's module scope, as far as
name binding and evaluation order are concerned. -/
inductive JsStmt where
  | bindConst (name : String)
  | appGet (path : String)
  | appUseRef (path : String) (ref : String)
  | appListen (portRef : String)
deriving DecidableEq, Repr

/-- Events observable from evaluating a module. -/
inductive ModEvent where
  | listened
deriving DecidableEq, Repr

/-- Evaluate a module's statements in order against an environment of
bound identifiers.  Referencing an unbound identifier aborts evaluation
with a ReferenceError; every later statement — including any listen
call — is never reached. -/
def evalModule (env : List String) : List JsStmt → Except String (List ModEvent)
  | [] => Except.ok []
  | JsStmt.bindConst n :: rest => evalModule (n :: env) rest
  | JsStmt.appGet _ :: rest => evalModule env rest
  | JsStmt.appUseRef _ r :: rest =>
    if r ∈ env then evalModule env rest
    else Except.error ("ReferenceError: " ++ r ++ " is not defined")
  | JsStmt.appListen pr :: rest =>
    if pr ∈ env then (evalModule env rest).map (fun evs => ModEvent.listened :: evs)
    else Except.error ("ReferenceError: " ++ pr ++ " is not defined")

/-- The statements of the `part_002` variant, in source order:
`const express = ...; const authRouter = ...; const app = ...;
const port = 3000; app.get("/", ...); app.use("/api/v1/auth", auth);
app.listen(port, ...)`.  The `app.use` mount references the identifier
`auth`, which no statement binds. -/
def part002Stmts : List JsStmt :=
  [JsStmt.bindConst "express", JsStmt.bindConst "authRouter",
   JsStmt.bindConst "app", JsStmt.bindConst "port",
   JsStmt.appGet "/",
   JsStmt.appUseRef "/api/v1/auth" "auth",
   JsStmt.appListen "port"]

/-- Whether evaluating a module ever binds the listener. -/
def moduleListens (stmts : List JsStmt) : Bool :=
  match evalModule [] stmts with
  | Except.ok evs => evs.contains ModEvent.listened
  | Except.error _ => false

/-- C1 counterexample: the claim quantifies over every execution of the
program, but in the `src/index.js` variant the startup trace contains a
listen event while no data-store verification success ever occurs —
`app.listen` runs unconditionally at module evaluation. -/
theorem C1_counterexample :
    StartupEvent.listen 3000 ∈ indexStartupTrace 3000 ∧
    StartupEvent.syncSucceeded ∉ indexStartupTrace 3000 := by
  decide

/-- C1 (amended): in the variant whose startup gates listening on the
data-store sync (`part_001`), a listen event occurs only when the sync
resolved successfully, and then the trace is exactly: sync success,
success log, listen on the configured port, readiness log — the
verification success strictly precedes the listen.  The `src/index.js`
variant performs no verification at all before listening. -/
theorem C1_listen_only_after_sync :
    (∀ (r : Except String Unit) (p q : Nat),
      StartupEvent.listen q ∈ syncStartupTrace r p →
        r = Except.ok () ∧
        syncStartupTrace r p =
          [StartupEvent.syncSucceeded, StartupEvent.logSynced,
           StartupEvent.listen p, StartupEvent.logListening p]) ∧
    (∀ p : Nat, StartupEvent.syncSucceeded ∉ indexStartupTrace p) := by
  constructor
  · intro r p q hq
    cases r with
    | ok u => exact ⟨rfl, rfl⟩
    | error e => simp [syncStartupTrace] at hq
  · intro p
    simp [indexStartupTrace]

/-- C1 witness: the gated variant with a successful sync at port 5000. -/
theorem C1_listen_only_after_sync_witness :
    (Except.ok () : Except String Unit) = Except.ok () ∧
    syncStartupTrace (Except.ok ()) 5000 =
      [StartupEvent.syncSucceeded, StartupEvent.logSynced,
       StartupEvent.listen 5000, StartupEvent.logListening 5000] :=
  C1_listen_only_after_sync.1 (Except.ok ()) 5000 5000 (by decide)

/-- C2: any (method, path) with no registered handler falls through to
the catch-all, which answers 404 with the JSON body
status "Failed", message "Route Not Found" — exactly. -/
theorem C2_unmatched_gives_404 :
    ∀ m p : String, lookupRoute appRoutes m p = none →
      appDispatch m p = ⟨404, Body.json ⟨"Failed", "Route Not Found"⟩⟩ := by
  intro m p hnone
  simp [appDispatch, dispatch, hnone, notFoundHandler]

/-- C2 witness: `GET /nope` is unregistered and yields the 404 body. -/
theorem C2_unmatched_gives_404_witness :
    lookupRoute appRoutes "GET" "/nope" = none ∧
    appDispatch "GET" "/nope" = ⟨404, Body.json ⟨"Failed", "Route Not Found"⟩⟩ :=
  ⟨rfl, C2_unmatched_gives_404 "GET" "/nope" rfl⟩

/-- C3 counterexample: dispatching `GET /` does not produce the JSON
envelope the claim states — the handler is
`res.send("Welcome to the server")`, plain text. -/
theorem C3_counterexample :
    appDispatch "GET" "/" ≠
      ⟨200, Body.json ⟨"success", "Welcome to the server"⟩⟩ := by
  decide

/-- C3 (amended): dispatching `GET /` on a fresh instance returns HTTP
status 200 with the plain-text body "Welcome to the server". -/
theorem C3_root_route_response :
    appDispatch "GET" "/" = ⟨200, Body.text "Welcome to the server"⟩ := by
  decide

/-- C4: when the data-store sync rejects, the startup trace binds no
listener on any port, logs the error exactly once, performs no explicit
process exit, and makes exactly one verification attempt (no retry). -/
theorem C4_failed_sync_aborts_startup :
    ∀ (e : String) (p : Nat),
      (∀ q : Nat, StartupEvent.listen q ∉ syncStartupTrace (Except.error e) p) ∧
      (syncStartupTrace (Except.error e) p).countP isLogError = 1 ∧
      (∀ c : Nat, StartupEvent.procExit c ∉ syncStartupTrace (Except.error e) p) ∧
      (syncStartupTrace (Except.error e) p).countP isSyncAttempt = 1 := by
  intro e p
  refine ⟨?_, ?_, ?_, ?_⟩ <;>
    simp [syncStartupTrace, isLogError, isSyncAttempt, List.countP_cons]

/-- C4 witness: a concrete failed sync. -/
theorem C4_failed_sync_aborts_startup_witness :
    StartupEvent.listen 5000 ∉ syncStartupTrace (Except.error "boom") 5000 ∧
    (syncStartupTrace (Except.error "boom") 5000).countP isLogError = 1 :=
  ⟨(C4_failed_sync_aborts_startup "boom" 5000).1 5000,
   (C4_failed_sync_aborts_startup "boom" 5000).2.1⟩

/-- C5: registering the same (method, path) twice with different
handlers makes dispatch invoke the most recently registered handler. -/
theorem C5_last_registration_wins :
    ∀ (t : RouteTable) (m p : String) (h₁ h₂ nf : Handler), h₁ ≠ h₂ →
      dispatch (register (register t m p h₁) m p h₂) nf m p = h₂ ⟨m, p⟩ := by
  intro t m p h₁ h₂ nf _
  simp [dispatch, register, lookupRoute]

/-- C5 witness: `GET /` registered with `rootHandler` then with the
distinct `altHandler`; dispatch uses `altHandler`. -/
theorem C5_last_registration_wins_witness :
    rootHandler ≠ altHandler ∧
    dispatch (register (register [] "GET" "/" rootHandler) "GET" "/" altHandler)
        notFoundHandler "GET" "/" = altHandler ⟨"GET", "/"⟩ := by
  have hne : rootHandler ≠ altHandler := by
    intro hEq
    have h2 := congrFun hEq ⟨"GET", "/"⟩
    simp [rootHandler, altHandler] at h2
  exact ⟨hne, C5_last_registration_wins [] "GET" "/" rootHandler altHandler
    notFoundHandler hne⟩

/-- C6: a listen event occurs exactly for the configured port — on
success of the sync in the gated variant (port resolved from the
environment with default 5000), and in the `src/index.js` variant
(`APP_PORT`); no other port is ever bound. -/
theorem C6_listens_on_configured_port :
    (∀ (env : Option Nat) (q : Nat),
      StartupEvent.listen q ∈ syncStartupTrace (Except.ok ()) (resolvePort env) ↔
        q = resolvePort env) ∧
    (∀ appPort q : Nat,
      StartupEvent.listen q ∈ indexStartupTrace appPort ↔ q = appPort) := by
  constructor
  · intro env q
    simp [syncStartupTrace]
  · intro appPort q
    simp [indexStartupTrace]

/-- C6 witness: with the environment port set to 4000, the gated
variant listens on 4000. -/
theorem C6_listens_on_configured_port_witness :
    StartupEvent.listen 4000 ∈ syncStartupTrace (Except.ok ()) (resolvePort (some 4000)) :=
  (C6_listens_on_configured_port.1 (some 4000) 4000).mpr rfl

/-- C7: along every startup trace the connection state starts
unverified, changes exactly once, ends connected or failed, and the
trace contains exactly one verification attempt (no retry, no
reconnect). -/
theorem C7_connection_state_single_transition :
    ∀ (r : Except String Unit) (p : Nat),
      (connStates (syncStartupTrace r p)).head? = some ConnState.unverified ∧
      stateChanges (connStates (syncStartupTrace r p)) = 1 ∧
      ((connStates (syncStartupTrace r p)).getLast? = some ConnState.connected ∨
        (connStates (syncStartupTrace r p)).getLast? = some ConnState.failed) ∧
      (syncStartupTrace r p).countP isSyncAttempt = 1 := by
  intro r p
  cases r with
  | ok u => exact ⟨rfl, rfl, Or.inl rfl, rfl⟩
  | error e => exact ⟨rfl, rfl, Or.inr rfl, rfl⟩

/-- C8: evaluating the `part_002` module aborts with a ReferenceError
on the undefined identifier `auth` before the listen statement, so that
variant never binds the listener. -/
theorem C8_part002_reference_error :
    evalModule [] part002Stmts =
      Except.error "ReferenceError: auth is not defined" ∧
    moduleListens part002Stmts = false :=
  ⟨rfl, rfl⟩

/-- C9: a request matching a registered route is handled by that
route's handler, never by the catch-all; in particular `GET /` never
yields the not-found body. -/
theorem C9_registered_route_beats_catchall :
    (∀ (t : RouteTable) (nf : Handler) (m p : String) (h : Handler),
      lookupRoute t m p = some h → dispatch t nf m p = h ⟨m, p⟩) ∧
    (appDispatch "GET" "/").body ≠ Body.json ⟨"Failed", "Route Not Found"⟩ := by
  constructor
  · intro t nf m p h hl
    simp [dispatch, hl]
  · decide

/-- C9 witness: `GET /` dispatches to the registered root handler. -/
theorem C9_registered_route_beats_catchall_witness :
    dispatch appRoutes notFoundHandler "GET" "/" = rootHandler ⟨"GET", "/"⟩ :=
  C9_registered_route_beats_catchall.1 appRoutes notFoundHandler "GET" "/"
    rootHandler rfl

/-- C10: the response to a request depends only on its method and path:
after any two histories of prior requests, serving the same request
produces the same response, namely the pure dispatch of that request. -/
theorem C10_dispatch_deterministic :
    ∀ (l₁ l₂ : List Request) (r : Request),
      (serveLog (l₁ ++ [r])).getLast? = some (appDispatch r.method r.path) ∧
      (serveLog (l₁ ++ [r])).getLast? = (serveLog (l₂ ++ [r])).getLast? := by
  intro l₁ l₂ r
  constructor
  · simp [serveLog]
  · simp [serveLog]
